import Mathlib

/-!
Device classification from request headers (go-platform-detection)

A shallow embedding of `platform.go`.  Go strings are byte sequences, so a
string is a list of byte values; `len` is `List.length` and `agent[:4]` is a
bounds-checked `List.take`.  The standard-library function `strings.ToLower`
is taken as a parameter `lower` of `getDeviceType`; `asciiLower` is its
behaviour on ASCII input and is used to evaluate concrete requests.
-/

namespace Platform

/-- A Go string: its sequence of bytes. -/
abbrev GoString := List Nat

/-- UTF-8 encoding of one code point. -/
def utf8 (c : Nat) : List Nat :=
  if c < 0x80 then [c]
  else if c < 0x800 then [0xC0 + c / 0x40, 0x80 + c % 0x40]
  else if c < 0x10000 then [0xE0 + c / 0x1000, 0x80 + c / 0x40 % 0x40, 0x80 + c % 0x40]
  else [0xF0 + c / 0x40000, 0x80 + c / 0x1000 % 0x40, 0x80 + c / 0x40 % 0x40, 0x80 + c % 0x40]

/-- The bytes of a string literal of the source. -/
def str (s : String) : GoString :=
  s.data.flatMap (fun c => utf8 c.toNat)

/-! ## Constants for device detection -/

def DefaultKey : String := "github.com/uzzalhcse/go-platform-detection"
def Android : GoString := str "android"
def Mobile : GoString := str "mobile"
def Ipad : GoString := str "ipad"
def Iphone : GoString := str "iphone"
def Ipod : GoString := str "ipod"
def Ios : GoString := str "ios"
def Kindle : GoString := str "Kindle"
def Silk : GoString := str "Silk"
def Unknown : GoString := str "Unknown"
def Wap : GoString := str "wap"
def XwapProfile : String := "X-Wap-Profile"
def Profile : String := "Profile"

/-- List of mobile user agent prefixes. -/
def MobileUserAgentPrefixes : List GoString := List.map str [
  "w3c ", "w3c-", "acs-", "alav", "alca", "amoi", "audi", "avan", "benq",
  "bird", "blac", "blaz", "brew", "cell", "cldc", "cmd-", "dang", "doco",
  "eric", "hipt", "htc_", "inno", "ipaq", "ipod", "jigs", "kddi", "keji",
  "leno", "lg-c", "lg-d", "lg-g", "lge-", "lg/u", "maui", "maxo", "midp",
  "mits", "mmef", "mobi", "mot-", "moto", "mwbp", "nec-", "newt", "noki",
  "palm", "pana", "pant", "phil", "play", "port", "prox", "qwap", "sage",
  "sams", "sany", "sch-", "sec-", "send", "seri", "sgh-", "shar", "sie-",
  "siem", "smal", "smar", "sony", "sph-", "symb", "t-mo", "teli", "tim-",
  "tosh", "tsm-", "upg1", "upsi", "vk-v", "voda", "wap-", "wapa", "wapi",
  "wapp", "wapr", "webc", "winw", "winw", "xda ", "xda-"]

/-- List of mobile user agent keywords. -/
def MobileUserAgentKeywords : List GoString := List.map str [
  "blackberry", "webos", "ipod", "lge vx", "midp", "maemo", "mmp", "mobile",
  "netfront", "hiptop", "nintendo DS", "novarra", "openweb", "opera mobi",
  "opera mini", "palm", "psp", "phone", "smartphone", "symbian", "up.browser",
  "up.link", "wap", "windows ce"]

/-- List of tablet user agent keywords. -/
def TabletUserAgentKeywords : List GoString :=
  List.map str ["ipad", "playbook", "hp-tablet", "kindle"]

/-- The struct `device`; a field left out of a composite literal is `false`. -/
structure device where
  isNormal : Bool := false
  isMobile : Bool := false
  isTablet : Bool := false
  platform : GoString
  deriving DecidableEq, Repr

/-- Run-time panics of the package. -/
inductive Panic where
  | sliceBounds
  | keyNotExists
  | typeAssertion
  deriving DecidableEq, Repr

/-! ## Library functions used by the detector -/

/-- Go `strings.HasPrefix(s, p)`. -/
def HasPrefix : GoString → GoString → Bool
  | _, [] => true
  | [], _ :: _ => false
  | a :: s, b :: p => a == b && HasPrefix s p

/-- Go `strings.Contains(s, substr)`: `substr` occurs at some offset of `s`. -/
def Contains : GoString → GoString → Bool
  | [], substr => HasPrefix [] substr
  | a :: s, substr => HasPrefix (a :: s) substr || Contains s substr

/-- Go `strings.ToLower` on one ASCII byte. -/
def lowerByte (b : Nat) : Nat :=
  if 65 ≤ b ∧ b ≤ 90 then b + 32 else b

/-- Go `strings.ToLower` on an ASCII string (bytes from 128 on are outside
its ASCII path and are left as they are here). -/
def asciiLower (s : GoString) : GoString :=
  s.map lowerByte

/-- Go `http.Header`: the values stored under each canonical header name. -/
abbrev Header := String → List GoString

/-- Go `Header.Get`: the first value under `key`, or the empty string.  The
four names looked up by the detector are already in canonical form. -/
def Header.Get (h : Header) (key : String) : GoString :=
  match h key with
  | [] => []
  | v :: _ => v

/-! ## The detector -/

/-- The tablet keyword loop of `getDeviceType`, over the keywords still to visit. -/
def tabletScan (agent : GoString) : List GoString → Option device
  | [] => none
  | keyword :: rest =>
    if Contains agent keyword then
      if keyword = Ipad then some { isTablet := true, platform := Ipad }
      else if keyword = Kindle then some { isTablet := true, platform := Kindle }
      else some { isTablet := true, platform := Unknown }
    else tabletScan agent rest

/-- The prefix loop of `getDeviceType`, over the prefixes still to visit. -/
def prefixScan (pre : GoString) : List GoString → Option device
  | [] => none
  | uaPrefix :: rest =>
    if Contains pre uaPrefix then some { isMobile := true, platform := Unknown }
    else prefixScan pre rest

/-- The `switch` that resolves the platform of a mobile device. -/
def mobilePlatform (agent : GoString) : device :=
  if Contains agent Android then { isMobile := true, platform := Android }
  else if Contains agent Iphone || Contains agent Ipod || Contains agent Ipad then
    { isMobile := true, platform := Ios }
  else { isMobile := true, platform := Unknown }

/-- The mobile keyword loop of `getDeviceType`, over the keywords still to visit. -/
def keywordScan (agent : GoString) : List GoString → Option device
  | [] => none
  | keyword :: rest =>
    if Contains agent keyword then some (mobilePlatform agent)
    else keywordScan agent rest

/-- The slice expression `s[:n]`, which panics when `n` exceeds `len(s)`. -/
def sliceTo (s : GoString) (n : Nat) : Except Panic GoString :=
  if n ≤ s.length then .ok (s.take n) else .error .sliceBounds

/-- Go `getDeviceType`, with `strings.ToLower` as `lower`. -/
def getDeviceType (lower : GoString → GoString) (header : Header) : Except Panic device :=
  let agent := lower (header.Get "User-Agent")
  -- Check Tablet User Agent Keywords
  match tabletScan agent TabletUserAgentKeywords with
  | some d => .ok d
  | none =>
    -- User Agent Profile detection
    let xWapProfile := header.Get XwapProfile
    let profile := header.Get Profile
    if xWapProfile ≠ [] ∨ profile ≠ [] then
      .ok (mobilePlatform agent)
    else
      -- User Agent Prefix check
      match sliceTo agent 4 with
      | .error e => .error e
      | .ok pre =>
        match prefixScan pre MobileUserAgentPrefixes with
        | some d => .ok d
        | none =>
          -- Accept Header check
          let accept := header.Get "Accept"
          if accept ≠ [] ∧ Contains accept Wap = true then
            .ok { isMobile := true, platform := Unknown }
          else
            -- Check Mobile User Agent Keywords
            match keywordScan agent MobileUserAgentKeywords with
            | some d => .ok d
            | none =>
              -- Assume 'normal' if mobile or tablet was not identified
              .ok { isNormal := true, platform := Unknown }

/-- A request whose header map holds the given name/value pairs. -/
def request (kvs : List (String × String)) : Header :=
  fun key => (kvs.filter (fun kv => kv.1 = key)).map (fun kv => str kv.2)

/-! ## The middleware and the accessor -/

/-- A value of Go type `any` kept in the per-request store: a `*device`, which
implements `Device`, or a value of some other type, which does not. -/
inductive Any where
  | dev (d : device)
  | other (tag : Nat)
  deriving DecidableEq, Repr

/-- The part of `gin.Context` that the package touches: the headers of the
request (`c.Request.Header`) and the per-request store (`c.Keys`). -/
structure Context where
  RequestHeader : Header
  Keys : String → Option Any

/-- The method `Context.Set` of gin: store `value` under `key`. -/
def Context.Set (c : Context) (key : String) (value : Any) : Context :=
  { c with Keys := fun k => if k = key then some value else c.Keys k }

/-- The method `Context.MustGet` of gin: the value under `key`; it panics when
the key does not exist. -/
def Context.MustGet (c : Context) (key : String) : Except Panic Any :=
  match c.Keys key with
  | some value => .ok value
  | none => .error .keyNotExists

/-- Go `ResolveDevice`: the handler it returns, with `c.Next()`, the rest of
the handler chain, as `next`. -/
def ResolveDevice (lower : GoString → GoString) (next : Context → Except Panic Context)
    (c : Context) : Except Panic Context :=
  match getDeviceType lower c.RequestHeader with
  | .error e => .error e
  | .ok d => next (c.Set DefaultKey (.dev d))

/-- Go `GetDevice`: `c.MustGet(DefaultKey).(Device)`. -/
def GetDevice (c : Context) : Except Panic device :=
  match c.MustGet DefaultKey with
  | .error e => .error e
  | .ok (.dev d) => .ok d
  | .ok (.other _) => .error .typeAssertion

/-! ## The detector without the "ipad" disjunct

The variant of `getDeviceType` in which `strings.Contains(agent, Ipad)` is
replaced by `false` in both platform resolutions. -/

/-- The platform `switch` with the "ipad" disjunct replaced by `false`. -/
def mobilePlatformVariant (agent : GoString) : device :=
  if Contains agent Android then { isMobile := true, platform := Android }
  else if Contains agent Iphone || Contains agent Ipod || false then
    { isMobile := true, platform := Ios }
  else { isMobile := true, platform := Unknown }

/-- The mobile keyword loop that resolves the platform by `mobilePlatformVariant`. -/
def keywordScanVariant (agent : GoString) : List GoString → Option device
  | [] => none
  | keyword :: rest =>
    if Contains agent keyword then some (mobilePlatformVariant agent)
    else keywordScanVariant agent rest

/-- The variant of `getDeviceType`: the same checks in the same order, with the
platform of a mobile device resolved by `mobilePlatformVariant`. -/
def getDeviceTypeVariant (lower : GoString → GoString) (header : Header) :
    Except Panic device :=
  let agent := lower (header.Get "User-Agent")
  match tabletScan agent TabletUserAgentKeywords with
  | some d => .ok d
  | none =>
    let xWapProfile := header.Get XwapProfile
    let profile := header.Get Profile
    if xWapProfile ≠ [] ∨ profile ≠ [] then
      .ok (mobilePlatformVariant agent)
    else
      match sliceTo agent 4 with
      | .error e => .error e
      | .ok pre =>
        match prefixScan pre MobileUserAgentPrefixes with
        | some d => .ok d
        | none =>
          let accept := header.Get "Accept"
          if accept ≠ [] ∧ Contains accept Wap = true then
            .ok { isMobile := true, platform := Unknown }
          else
            match keywordScanVariant agent MobileUserAgentKeywords with
            | some d => .ok d
            | none => .ok { isNormal := true, platform := Unknown }

/-! ## Substring search -/

theorem HasPrefix_iff (s p : GoString) : HasPrefix s p = true ↔ p <+: s := by
  induction s generalizing p with
  | nil => cases p <;> simp [HasPrefix]
  | cons a s ih =>
    cases p with
    | nil => simp [HasPrefix]
    | cons b p =>
      simp only [HasPrefix, Bool.and_eq_true, beq_iff_eq, ih, List.cons_prefix_cons]
      constructor
      · rintro ⟨h1, h2⟩
        exact ⟨h1.symm, h2⟩
      · rintro ⟨h1, h2⟩
        exact ⟨h1.symm, h2⟩

theorem Contains_iff (s substr : GoString) : Contains s substr = true ↔ substr <:+: s := by
  induction s with
  | nil =>
    simp only [Contains, HasPrefix_iff, List.prefix_nil, List.infix_nil]
  | cons a s ih =>
    simp only [Contains, Bool.or_eq_true, HasPrefix_iff, ih, List.infix_cons_iff]

theorem Contains_self (s : GoString) : Contains s s = true :=
  (Contains_iff s s).2 List.infix_rfl

theorem Contains_length_le {s substr : GoString} (h : Contains s substr = true) :
    substr.length ≤ s.length :=
  ((Contains_iff s substr).1 h).length_le

theorem Contains_eq_of_length {s substr : GoString} (h : Contains s substr = true)
    (hl : substr.length = s.length) : substr = s :=
  ((Contains_iff s substr).1 h).eq_of_length hl

theorem Contains_ne_nil {s substr : GoString} (h : Contains s substr = true)
    (hs : substr ≠ []) : s ≠ [] := by
  intro hn
  subst hn
  have := Contains_length_le h
  cases substr with
  | nil => exact hs rfl
  | cons b t => simp at this

/-! ## The three loops -/

theorem tabletScan_eq_none (agent : GoString) (ks : List GoString) :
    tabletScan agent ks = none ↔ ∀ k ∈ ks, Contains agent k = false := by
  induction ks with
  | nil => simp [tabletScan]
  | cons k ks ih =>
    by_cases hk : Contains agent k = true
    · simp only [tabletScan, hk, if_true, List.mem_cons, forall_eq_or_imp]
      constructor
      · intro h
        split at h <;> try split at h
        all_goals simp at h
      · intro h
        simp at h
    · simp only [Bool.not_eq_true] at hk
      simp [tabletScan, hk, ih]

theorem tabletScan_flags {agent : GoString} {ks : List GoString} {d : device}
    (h : tabletScan agent ks = some d) :
    d.isNormal = false ∧ d.isMobile = false ∧ d.isTablet = true := by
  induction ks with
  | nil => simp [tabletScan] at h
  | cons k ks ih =>
    simp only [tabletScan] at h
    split at h
    · split at h
      · cases h; simp
      · split at h <;> (cases h; simp)
    · exact ih h

theorem prefixScan_eq_none (pre : GoString) (ks : List GoString) :
    prefixScan pre ks = none ↔ ∀ k ∈ ks, Contains pre k = false := by
  induction ks with
  | nil => simp [prefixScan]
  | cons k ks ih =>
    by_cases hk : Contains pre k = true
    · simp [prefixScan, hk]
    · simp only [Bool.not_eq_true] at hk
      simp [prefixScan, hk, ih]

theorem prefixScan_some {pre : GoString} {ks : List GoString} {d : device}
    (h : prefixScan pre ks = some d) : d = { isMobile := true, platform := Unknown } := by
  induction ks with
  | nil => simp [prefixScan] at h
  | cons k ks ih =>
    simp only [prefixScan] at h
    split at h
    · cases h; rfl
    · exact ih h

theorem keywordScan_eq_none (agent : GoString) (ks : List GoString) :
    keywordScan agent ks = none ↔ ∀ k ∈ ks, Contains agent k = false := by
  induction ks with
  | nil => simp [keywordScan]
  | cons k ks ih =>
    by_cases hk : Contains agent k = true
    · simp [keywordScan, hk]
    · simp only [Bool.not_eq_true] at hk
      simp [keywordScan, hk, ih]

theorem keywordScan_some {agent : GoString} {ks : List GoString} {d : device}
    (h : keywordScan agent ks = some d) : d = mobilePlatform agent := by
  induction ks with
  | nil => simp [keywordScan] at h
  | cons k ks ih =>
    simp only [keywordScan] at h
    split at h
    · cases h; rfl
    · exact ih h

theorem mobilePlatform_flags (agent : GoString) :
    (mobilePlatform agent).isNormal = false ∧ (mobilePlatform agent).isMobile = true ∧
      (mobilePlatform agent).isTablet = false := by
  unfold mobilePlatform
  split
  · simp
  · split <;> simp

theorem prefix_length : ∀ p ∈ MobileUserAgentPrefixes, p.length = 4 := by
  decide

theorem tablet_keyword_length : ∀ k ∈ TabletUserAgentKeywords, 4 ≤ k.length := by
  decide

/-- On a four-byte window the prefix loop finds nothing exactly when the window
is not an entry of the list. -/
theorem prefixScan_window (pre : GoString) (hl : pre.length = 4) :
    prefixScan pre MobileUserAgentPrefixes = none ↔ pre ∉ MobileUserAgentPrefixes := by
  rw [prefixScan_eq_none]
  constructor
  · intro h hm
    have := h pre hm
    rw [Contains_self] at this
    exact Bool.noConfusion this
  · intro h k hk
    cases hc : Contains pre k with
    | false => rfl
    | true =>
      have := Contains_eq_of_length hc ((prefix_length k hk).trans hl.symm)
      exact absurd (this ▸ hk) h

/-! ## The paths through `getDeviceType` -/

theorem getDeviceType_tablet {lower : GoString → GoString} {h : Header} {d : device}
    (ht : tabletScan (lower (h.Get "User-Agent")) TabletUserAgentKeywords = some d) :
    getDeviceType lower h = .ok d := by
  simp only [getDeviceType, ht]

theorem getDeviceType_profile {lower : GoString → GoString} {h : Header}
    (ht : tabletScan (lower (h.Get "User-Agent")) TabletUserAgentKeywords = none)
    (hp : h.Get XwapProfile ≠ [] ∨ h.Get Profile ≠ []) :
    getDeviceType lower h = .ok (mobilePlatform (lower (h.Get "User-Agent"))) := by
  simp only [getDeviceType, ht, if_pos hp]

theorem getDeviceType_short {lower : GoString → GoString} {h : Header}
    (ht : tabletScan (lower (h.Get "User-Agent")) TabletUserAgentKeywords = none)
    (hx : h.Get XwapProfile = []) (hp : h.Get Profile = [])
    (hl : (lower (h.Get "User-Agent")).length < 4) :
    getDeviceType lower h = .error .sliceBounds := by
  have hn : ¬ (4 ≤ (lower (h.Get "User-Agent")).length) := Nat.not_le.2 hl
  simp [getDeviceType, ht, hx, hp, sliceTo, hn]

theorem getDeviceType_window {lower : GoString → GoString} {h : Header} {d : device}
    (ht : tabletScan (lower (h.Get "User-Agent")) TabletUserAgentKeywords = none)
    (hx : h.Get XwapProfile = []) (hp : h.Get Profile = [])
    (hl : 4 ≤ (lower (h.Get "User-Agent")).length)
    (hs : prefixScan ((lower (h.Get "User-Agent")).take 4) MobileUserAgentPrefixes = some d) :
    getDeviceType lower h = .ok d := by
  simp [getDeviceType, ht, hx, hp, sliceTo, hl, hs]

theorem getDeviceType_accept {lower : GoString → GoString} {h : Header}
    (ht : tabletScan (lower (h.Get "User-Agent")) TabletUserAgentKeywords = none)
    (hx : h.Get XwapProfile = []) (hp : h.Get Profile = [])
    (hl : 4 ≤ (lower (h.Get "User-Agent")).length)
    (hs : prefixScan ((lower (h.Get "User-Agent")).take 4) MobileUserAgentPrefixes = none)
    (ha : Contains (h.Get "Accept") Wap = true) :
    getDeviceType lower h = .ok { isMobile := true, platform := Unknown } := by
  have hne : h.Get "Accept" ≠ [] := Contains_ne_nil ha (by decide)
  simp [getDeviceType, ht, hx, hp, sliceTo, hl, hs, ha, hne]

theorem getDeviceType_keyword {lower : GoString → GoString} {h : Header} {d : device}
    (ht : tabletScan (lower (h.Get "User-Agent")) TabletUserAgentKeywords = none)
    (hx : h.Get XwapProfile = []) (hp : h.Get Profile = [])
    (hl : 4 ≤ (lower (h.Get "User-Agent")).length)
    (hs : prefixScan ((lower (h.Get "User-Agent")).take 4) MobileUserAgentPrefixes = none)
    (ha : Contains (h.Get "Accept") Wap = false)
    (hk : keywordScan (lower (h.Get "User-Agent")) MobileUserAgentKeywords = some d) :
    getDeviceType lower h = .ok d := by
  simp [getDeviceType, ht, hx, hp, sliceTo, hl, hs, ha, hk]

theorem getDeviceType_normal {lower : GoString → GoString} {h : Header}
    (ht : tabletScan (lower (h.Get "User-Agent")) TabletUserAgentKeywords = none)
    (hx : h.Get XwapProfile = []) (hp : h.Get Profile = [])
    (hl : 4 ≤ (lower (h.Get "User-Agent")).length)
    (hs : prefixScan ((lower (h.Get "User-Agent")).take 4) MobileUserAgentPrefixes = none)
    (ha : Contains (h.Get "Accept") Wap = false)
    (hk : keywordScan (lower (h.Get "User-Agent")) MobileUserAgentKeywords = none) :
    getDeviceType lower h = .ok { isNormal := true, platform := Unknown } := by
  simp [getDeviceType, ht, hx, hp, sliceTo, hl, hs, ha, hk]

/-- A string of fewer than four bytes contains no tablet keyword. -/
theorem tabletScan_short {agent : GoString} (hl : agent.length < 4) :
    tabletScan agent TabletUserAgentKeywords = none := by
  rw [tabletScan_eq_none]
  intro k hk
  cases hc : Contains agent k with
  | false => rfl
  | true =>
    have h1 := Contains_length_le hc
    have h2 := tablet_keyword_length k hk
    omega

/-! ## Claims about `getDeviceType` -/

/-- Claim C1, evaluated on the code: when the lower-cased User-Agent has fewer
than four bytes and neither X-Wap-Profile nor Profile is set, `getDeviceType`
does not return a classification; the slice `agent[:4]` panics. -/
theorem C1_short_agent_panics (lower : GoString → GoString) (h : Header)
    (hl : (lower (h.Get "User-Agent")).length < 4)
    (hx : h.Get XwapProfile = []) (hp : h.Get Profile = []) :
    getDeviceType lower h = .error .sliceBounds :=
  getDeviceType_short (tabletScan_short hl) hx hp hl

/-- Claim C1 at the request whose only header is `User-Agent: abc`. -/
theorem C1_short_agent_panics_witness :
    (asciiLower ((request [("User-Agent", "abc")]).Get "User-Agent")).length < 4 ∧
    (request [("User-Agent", "abc")]).Get XwapProfile = [] ∧
    (request [("User-Agent", "abc")]).Get Profile = [] ∧
    getDeviceType asciiLower (request [("User-Agent", "abc")]) = .error .sliceBounds :=
  ⟨by decide, by decide, by decide,
    C1_short_agent_panics asciiLower (request [("User-Agent", "abc")])
      (by decide) (by decide) (by decide)⟩

/-- Claim C2: every classification returned by `getDeviceType` has exactly one
of isNormal, isMobile, isTablet set. -/
theorem C2_exactly_one_flag (lower : GoString → GoString) (h : Header) (d : device)
    (hd : getDeviceType lower h = .ok d) :
    (d.isNormal = true ∧ d.isMobile = false ∧ d.isTablet = false) ∨
    (d.isNormal = false ∧ d.isMobile = true ∧ d.isTablet = false) ∨
    (d.isNormal = false ∧ d.isMobile = false ∧ d.isTablet = true) := by
  have hm := mobilePlatform_flags (lower (h.Get "User-Agent"))
  unfold getDeviceType at hd
  simp only at hd
  split at hd
  · rename_i d1 ht
    cases hd
    exact Or.inr (Or.inr (tabletScan_flags ht))
  · split at hd
    · cases hd
      exact Or.inr (Or.inl hm)
    · split at hd
      · cases hd
      · split at hd
        · rename_i d1 hs
          cases hd
          rw [prefixScan_some hs]
          exact Or.inr (Or.inl ⟨rfl, rfl, rfl⟩)
        · split at hd
          · cases hd
            exact Or.inr (Or.inl ⟨rfl, rfl, rfl⟩)
          · split at hd
            · rename_i d1 hk
              cases hd
              rw [keywordScan_some hk]
              exact Or.inr (Or.inl hm)
            · cases hd
              exact Or.inl ⟨rfl, rfl, rfl⟩

/-- Claim C2 at a desktop request, which is classified as normal only. -/
theorem C2_exactly_one_flag_witness :
    getDeviceType asciiLower (request [("User-Agent", "Mozilla/5.0 (X11; Linux x86_64)")]) =
      .ok (device.mk true false false (str "Unknown")) ∧
    (((device.mk true false false (str "Unknown")).isNormal = true ∧
        (device.mk true false false (str "Unknown")).isMobile = false ∧
        (device.mk true false false (str "Unknown")).isTablet = false) ∨
      ((device.mk true false false (str "Unknown")).isNormal = false ∧
        (device.mk true false false (str "Unknown")).isMobile = true ∧
        (device.mk true false false (str "Unknown")).isTablet = false) ∨
      ((device.mk true false false (str "Unknown")).isNormal = false ∧
        (device.mk true false false (str "Unknown")).isMobile = false ∧
        (device.mk true false false (str "Unknown")).isTablet = true)) :=
  ⟨rfl, C2_exactly_one_flag asciiLower
    (request [("User-Agent", "Mozilla/5.0 (X11; Linux x86_64)")])
    (device.mk true false false (str "Unknown")) rfl⟩

/-- Claim C3, evaluated on the code: for the request with no headers at all the
User-Agent is empty and `getDeviceType` panics at `agent[:4]` instead of
returning the normal/"Unknown" classification. -/
theorem C3_no_headers_panics :
    getDeviceType asciiLower (request []) = .error .sliceBounds := by
  rfl

/-- Claim C4: a User-Agent whose lower-cased form contains "ipad" is classified
as tablet with platform "ipad", whatever else the request holds. -/
theorem C4_ipad_is_tablet (lower : GoString → GoString) (h : Header)
    (hi : Contains (lower (h.Get "User-Agent")) (str "ipad") = true) :
    getDeviceType lower h =
      .ok { isNormal := false, isMobile := false, isTablet := true, platform := str "ipad" } := by
  apply getDeviceType_tablet
  have hi2 : Contains (lower (h.Get "User-Agent")) (str "ipad") = true := hi
  simp only [TabletUserAgentKeywords, List.map, tabletScan, hi2, if_true]
  rfl

/-- Claim C4 at the User-Agent `Mozilla/5.0 (iPad; CPU OS 14_0)`. -/
theorem C4_ipad_is_tablet_witness :
    Contains (asciiLower ((request [("User-Agent", "Mozilla/5.0 (iPad; CPU OS 14_0)")]).Get
      "User-Agent")) (str "ipad") = true ∧
    getDeviceType asciiLower (request [("User-Agent", "Mozilla/5.0 (iPad; CPU OS 14_0)")]) =
      .ok { isNormal := false, isMobile := false, isTablet := true, platform := str "ipad" } :=
  ⟨by decide, C4_ipad_is_tablet asciiLower
    (request [("User-Agent", "Mozilla/5.0 (iPad; CPU OS 14_0)")]) (by decide)⟩

/-- Claim C5, evaluated on the code: a User-Agent whose lower-cased form contains
"kindle" and none of "ipad", "playbook", "hp-tablet" is classified as tablet
with platform "Unknown", not "Kindle": the loop keyword "kindle" differs from
the constant `Kindle = "Kindle"` tested by the `switch`. -/
theorem C5_kindle_platform_unknown (lower : GoString → GoString) (h : Header)
    (hk : Contains (lower (h.Get "User-Agent")) (str "kindle") = true)
    (h1 : Contains (lower (h.Get "User-Agent")) (str "ipad") = false)
    (h2 : Contains (lower (h.Get "User-Agent")) (str "playbook") = false)
    (h3 : Contains (lower (h.Get "User-Agent")) (str "hp-tablet") = false) :
    getDeviceType lower h =
      .ok { isNormal := false, isMobile := false, isTablet := true, platform := str "Unknown" } ∧
    str "Unknown" ≠ str "Kindle" := by
  refine ⟨?_, by decide⟩
  apply getDeviceType_tablet
  have e : (str "kindle" = Kindle) = False := eq_false (by decide)
  have e2 : (str "kindle" = Ipad) = False := eq_false (by decide)
  simp only [TabletUserAgentKeywords, List.map, tabletScan, hk, h1, h2, h3, if_true, e, e2,
    if_false, Bool.false_eq_true]
  rfl

/-- Claim C5 at the User-Agent `Mozilla/5.0 (Linux; U; en-US) Kindle/3.0`. -/
theorem C5_kindle_platform_unknown_witness :
    Contains (asciiLower ((request [("User-Agent", "Mozilla/5.0 (Linux; U; en-US) Kindle/3.0")]).Get
      "User-Agent")) (str "kindle") = true ∧
    getDeviceType asciiLower (request [("User-Agent", "Mozilla/5.0 (Linux; U; en-US) Kindle/3.0")]) =
      .ok { isNormal := false, isMobile := false, isTablet := true, platform := str "Unknown" } :=
  ⟨by decide, (C5_kindle_platform_unknown asciiLower
    (request [("User-Agent", "Mozilla/5.0 (Linux; U; en-US) Kindle/3.0")])
    (by decide) (by decide) (by decide) (by decide)).1⟩

/-- Claim C6 fails as stated: the request whose only header is
`User-Agent: Mozilla/5.0 (Linux; Android 10)` meets every hypothesis of the
claim and is classified as normal with platform "Unknown", not as mobile. -/
theorem C6_android_alone_is_normal :
    (request [("User-Agent", "Mozilla/5.0 (Linux; Android 10)")]).Get XwapProfile = [] ∧
    (request [("User-Agent", "Mozilla/5.0 (Linux; Android 10)")]).Get Profile = [] ∧
    Contains (asciiLower ((request [("User-Agent", "Mozilla/5.0 (Linux; Android 10)")]).Get
      "User-Agent")) (str "android") = true ∧
    (∀ k ∈ TabletUserAgentKeywords,
      Contains (asciiLower ((request [("User-Agent", "Mozilla/5.0 (Linux; Android 10)")]).Get
        "User-Agent")) k = false) ∧
    getDeviceType asciiLower (request [("User-Agent", "Mozilla/5.0 (Linux; Android 10)")]) =
      .ok { isNormal := true, isMobile := false, isTablet := false, platform := str "Unknown" } ∧
    ¬ ∃ d, getDeviceType asciiLower (request [("User-Agent", "Mozilla/5.0 (Linux; Android 10)")]) =
      .ok d ∧ d.isMobile = true := by
  refine ⟨by decide, by decide, by decide, by decide, rfl, ?_⟩
  rintro ⟨d, hd, hm⟩
  have e : getDeviceType asciiLower (request [("User-Agent", "Mozilla/5.0 (Linux; Android 10)")]) =
      .ok { isNormal := true, isMobile := false, isTablet := false, platform := str "Unknown" } :=
    rfl
  rw [e] at hd
  cases hd
  exact Bool.noConfusion hm

/-- Claim C6 as amended: with no X-Wap-Profile and no Profile header, a
User-Agent whose lower-cased form contains "android" and no tablet keyword is
always classified, and the result is mobile with platform "android" exactly
when the first four bytes are not a mobile prefix, Accept does not contain
"wap", and the lower-cased User-Agent contains an entry of the mobile keyword
list. -/
theorem C6_android_mobile_iff (lower : GoString → GoString) (h : Header)
    (hx : h.Get XwapProfile = []) (hp : h.Get Profile = [])
    (ha : Contains (lower (h.Get "User-Agent")) (str "android") = true)
    (ht : ∀ k ∈ TabletUserAgentKeywords, Contains (lower (h.Get "User-Agent")) k = false) :
    ∃ d, getDeviceType lower h = .ok d ∧
      ((d.isMobile = true ∧ d.platform = str "android") ↔
        ((lower (h.Get "User-Agent")).take 4 ∉ MobileUserAgentPrefixes ∧
          Contains (h.Get "Accept") (str "wap") = false ∧
          ∃ k ∈ MobileUserAgentKeywords, Contains (lower (h.Get "User-Agent")) k = true)) := by
  have hts := (tabletScan_eq_none _ _).2 ht
  have hl : 4 ≤ (lower (h.Get "User-Agent")).length := by
    have h7 := Contains_length_le ha
    have e7 : (str "android").length = 7 := by decide
    omega
  have h4 : ((lower (h.Get "User-Agent")).take 4).length = 4 := by
    rw [List.length_take]
    omega
  have hmp : mobilePlatform (lower (h.Get "User-Agent")) =
      { isMobile := true, platform := str "android" } := by
    have ha2 : Contains (lower (h.Get "User-Agent")) Android = true := ha
    simp only [mobilePlatform, ha2, if_true]
    rfl
  have hu : str "Unknown" ≠ str "android" := by decide
  cases hs : prefixScan ((lower (h.Get "User-Agent")).take 4) MobileUserAgentPrefixes with
  | some d =>
    refine ⟨d, getDeviceType_window hts hx hp hl hs, ?_⟩
    have hin : (lower (h.Get "User-Agent")).take 4 ∈ MobileUserAgentPrefixes := by
      by_contra hc
      rw [(prefixScan_window _ h4).2 hc] at hs
      cases hs
    rw [prefixScan_some hs]
    constructor
    · rintro ⟨-, h2⟩
      exact absurd h2 hu
    · rintro ⟨h1, -⟩
      exact absurd hin h1
  | none =>
    have hnin := (prefixScan_window _ h4).1 hs
    cases hw : Contains (h.Get "Accept") (str "wap") with
    | true =>
      refine ⟨_, getDeviceType_accept hts hx hp hl hs hw, ?_⟩
      constructor
      · rintro ⟨-, h2⟩
        exact absurd h2 hu
      · rintro ⟨-, h2, -⟩
        cases h2
    | false =>
      cases hk : keywordScan (lower (h.Get "User-Agent")) MobileUserAgentKeywords with
      | some d =>
        refine ⟨d, getDeviceType_keyword hts hx hp hl hs hw hk, ?_⟩
        rw [keywordScan_some hk, hmp]
        constructor
        · intro _
          refine ⟨hnin, rfl, ?_⟩
          by_contra hc
          have hall : ∀ k ∈ MobileUserAgentKeywords,
              Contains (lower (h.Get "User-Agent")) k = false := by
            intro k hkm
            cases hck : Contains (lower (h.Get "User-Agent")) k with
            | false => rfl
            | true => exact absurd ⟨k, hkm, hck⟩ hc
          rw [(keywordScan_eq_none _ _).2 hall] at hk
          cases hk
        · intro _
          exact ⟨rfl, rfl⟩
      | none =>
        refine ⟨_, getDeviceType_normal hts hx hp hl hs hw hk, ?_⟩
        constructor
        · rintro ⟨h1, -⟩
          cases h1
        · rintro ⟨-, -, k, hkm, hck⟩
          rw [(keywordScan_eq_none _ _).1 hk k hkm] at hck
          cases hck

/-- Claim C6 as amended, at `User-Agent: Mozilla/5.0 (Linux; Android 10) Mobile`. -/
theorem C6_android_mobile_iff_witness :
    (request [("User-Agent", "Mozilla/5.0 (Linux; Android 10) Mobile")]).Get XwapProfile = [] ∧
    Contains (asciiLower ((request [("User-Agent", "Mozilla/5.0 (Linux; Android 10) Mobile")]).Get
      "User-Agent")) (str "android") = true ∧
    getDeviceType asciiLower (request [("User-Agent", "Mozilla/5.0 (Linux; Android 10) Mobile")]) =
      .ok { isNormal := false, isMobile := true, isTablet := false, platform := str "android" } ∧
    ∃ d, getDeviceType asciiLower
        (request [("User-Agent", "Mozilla/5.0 (Linux; Android 10) Mobile")]) = .ok d ∧
      ((d.isMobile = true ∧ d.platform = str "android") ↔
        ((asciiLower ((request [("User-Agent", "Mozilla/5.0 (Linux; Android 10) Mobile")]).Get
            "User-Agent")).take 4 ∉ MobileUserAgentPrefixes ∧
          Contains ((request [("User-Agent", "Mozilla/5.0 (Linux; Android 10) Mobile")]).Get
            "Accept") (str "wap") = false ∧
          ∃ k ∈ MobileUserAgentKeywords,
            Contains (asciiLower ((request
              [("User-Agent", "Mozilla/5.0 (Linux; Android 10) Mobile")]).Get "User-Agent")) k =
              true)) :=
  ⟨by decide, by decide, rfl,
    C6_android_mobile_iff asciiLower
      (request [("User-Agent", "Mozilla/5.0 (Linux; Android 10) Mobile")])
      (by decide) (by decide) (by decide) (by decide)⟩

/-- Claim C7: when X-Wap-Profile or Profile is non-empty and the lower-cased
User-Agent contains no tablet keyword, the request is classified as mobile
with platform "android" if the User-Agent contains "android", otherwise "ios"
if it contains "iphone" or "ipod", otherwise "Unknown"; the length of the
User-Agent, its prefix, its keywords and the Accept header play no part. -/
theorem C7_profile_header_mobile (lower : GoString → GoString) (h : Header)
    (hp : h.Get XwapProfile ≠ [] ∨ h.Get Profile ≠ [])
    (ht : ∀ k ∈ TabletUserAgentKeywords, Contains (lower (h.Get "User-Agent")) k = false) :
    getDeviceType lower h =
      .ok { isNormal := false, isMobile := true, isTablet := false,
            platform :=
              if Contains (lower (h.Get "User-Agent")) (str "android") = true then str "android"
              else if Contains (lower (h.Get "User-Agent")) (str "iphone") = true ∨
                  Contains (lower (h.Get "User-Agent")) (str "ipod") = true then str "ios"
              else str "Unknown" } := by
  rw [getDeviceType_profile ((tabletScan_eq_none _ _).2 ht) hp]
  have hi : Contains (lower (h.Get "User-Agent")) Ipad = false := ht Ipad (by decide)
  have ea : Android = str "android" := rfl
  have ei : Iphone = str "iphone" := rfl
  have eo : Ipod = str "ipod" := rfl
  have es : Ios = str "ios" := rfl
  have eu : Unknown = str "Unknown" := rfl
  simp only [mobilePlatform, hi, Bool.or_false, ea, ei, eo, es, eu, Bool.or_eq_true]
  split
  · rfl
  · split <;> rfl

/-- Claim C7 at a request with an X-Wap-Profile header and an iPhone User-Agent
that holds no mobile prefix. -/
theorem C7_profile_header_mobile_witness :
    ((request [("User-Agent", "Mozilla/5.0 (iPhone; CPU iPhone OS 14_0)"),
        ("X-Wap-Profile", "http://wap.example.com/uaprof.xml")]).Get XwapProfile ≠ [] ∨
      (request [("User-Agent", "Mozilla/5.0 (iPhone; CPU iPhone OS 14_0)"),
        ("X-Wap-Profile", "http://wap.example.com/uaprof.xml")]).Get Profile ≠ []) ∧
    getDeviceType asciiLower (request [("User-Agent", "Mozilla/5.0 (iPhone; CPU iPhone OS 14_0)"),
        ("X-Wap-Profile", "http://wap.example.com/uaprof.xml")]) =
      .ok { isNormal := false, isMobile := true, isTablet := false, platform := str "ios" } :=
  ⟨by decide, C7_profile_header_mobile asciiLower
    (request [("User-Agent", "Mozilla/5.0 (iPhone; CPU iPhone OS 14_0)"),
      ("X-Wap-Profile", "http://wap.example.com/uaprof.xml")]) (by decide) (by decide)⟩

/-- Claim C8: with X-Wap-Profile and Profile empty, a lower-cased User-Agent of
at least four bytes that contains no tablet keyword and whose first four bytes
are an entry of `MobileUserAgentPrefixes` is classified as mobile with
platform "Unknown", whatever the Accept header and the rest of the User-Agent. -/
theorem C8_prefix_mobile (lower : GoString → GoString) (h : Header)
    (hx : h.Get XwapProfile = []) (hp : h.Get Profile = [])
    (ht : ∀ k ∈ TabletUserAgentKeywords, Contains (lower (h.Get "User-Agent")) k = false)
    (hl : 4 ≤ (lower (h.Get "User-Agent")).length)
    (hm : (lower (h.Get "User-Agent")).take 4 ∈ MobileUserAgentPrefixes) :
    getDeviceType lower h =
      .ok { isNormal := false, isMobile := true, isTablet := false, platform := str "Unknown" } := by
  have h4 : ((lower (h.Get "User-Agent")).take 4).length = 4 := by
    rw [List.length_take]
    omega
  cases hs : prefixScan ((lower (h.Get "User-Agent")).take 4) MobileUserAgentPrefixes with
  | none => exact absurd hm ((prefixScan_window _ h4).1 hs)
  | some d =>
    rw [getDeviceType_window ((tabletScan_eq_none _ _).2 ht) hx hp hl hs, prefixScan_some hs]
    rfl

/-- Claim C8 at a User-Agent that starts with "DoCo" and also names Android
and iPhone, sent with an Accept header. -/
theorem C8_prefix_mobile_witness :
    (asciiLower ((request [("User-Agent", "DoCoMo/2.0 (Android; iPhone)"),
        ("Accept", "text/html")]).Get "User-Agent")).take 4 = str "doco" ∧
    str "doco" ∈ MobileUserAgentPrefixes ∧
    getDeviceType asciiLower (request [("User-Agent", "DoCoMo/2.0 (Android; iPhone)"),
        ("Accept", "text/html")]) =
      .ok { isNormal := false, isMobile := true, isTablet := false, platform := str "Unknown" } :=
  ⟨by decide, by decide, C8_prefix_mobile asciiLower
    (request [("User-Agent", "DoCoMo/2.0 (Android; iPhone)"), ("Accept", "text/html")])
    (by decide) (by decide) (by decide) (by decide) (by decide)⟩

/-- Claim C9, evaluated on the code: the request whose only header is
`User-Agent: Opera/9.50 (Nintendo DSi; Opera/507; U; en-US)` reaches the mobile
keyword loop and its User-Agent contains the list entry "nintendo DS" when
letter case is ignored, yet it is classified as normal: the loop compares the
lower-cased User-Agent with the entry as written, capitals included. -/
theorem C9_nintendo_ds_is_normal :
    4 ≤ (asciiLower ((request [("User-Agent", "Opera/9.50 (Nintendo DSi; Opera/507; U; en-US)")]).Get
      "User-Agent")).length ∧
    (∀ k ∈ TabletUserAgentKeywords,
      Contains (asciiLower ((request
        [("User-Agent", "Opera/9.50 (Nintendo DSi; Opera/507; U; en-US)")]).Get "User-Agent")) k =
        false) ∧
    (asciiLower ((request [("User-Agent", "Opera/9.50 (Nintendo DSi; Opera/507; U; en-US)")]).Get
      "User-Agent")).take 4 ∉ MobileUserAgentPrefixes ∧
    (request [("User-Agent", "Opera/9.50 (Nintendo DSi; Opera/507; U; en-US)")]).Get XwapProfile =
      [] ∧
    (request [("User-Agent", "Opera/9.50 (Nintendo DSi; Opera/507; U; en-US)")]).Get Profile = [] ∧
    Contains ((request [("User-Agent", "Opera/9.50 (Nintendo DSi; Opera/507; U; en-US)")]).Get
      "Accept") (str "wap") = false ∧
    str "nintendo DS" ∈ MobileUserAgentKeywords ∧
    Contains (asciiLower ((request
      [("User-Agent", "Opera/9.50 (Nintendo DSi; Opera/507; U; en-US)")]).Get "User-Agent"))
      (asciiLower (str "nintendo DS")) = true ∧
    getDeviceType asciiLower
        (request [("User-Agent", "Opera/9.50 (Nintendo DSi; Opera/507; U; en-US)")]) =
      .ok { isNormal := true, isMobile := false, isTablet := false, platform := str "Unknown" } :=
  ⟨by decide, by decide, by decide, by decide, by decide, by decide, by decide, by decide, rfl⟩

/-- Claim C10: with X-Wap-Profile and Profile empty, a lower-cased User-Agent of
at least four bytes that contains no tablet keyword and whose first four bytes
are not an entry of `MobileUserAgentPrefixes`, sent with an Accept value that
contains "wap", is classified as mobile with platform "Unknown". -/
theorem C10_accept_wap_mobile (lower : GoString → GoString) (h : Header)
    (hx : h.Get XwapProfile = []) (hp : h.Get Profile = [])
    (hl : 4 ≤ (lower (h.Get "User-Agent")).length)
    (ht : ∀ k ∈ TabletUserAgentKeywords, Contains (lower (h.Get "User-Agent")) k = false)
    (hn : (lower (h.Get "User-Agent")).take 4 ∉ MobileUserAgentPrefixes)
    (ha : Contains (h.Get "Accept") (str "wap") = true) :
    getDeviceType lower h =
      .ok { isNormal := false, isMobile := true, isTablet := false, platform := str "Unknown" } := by
  have h4 : ((lower (h.Get "User-Agent")).take 4).length = 4 := by
    rw [List.length_take]
    omega
  exact getDeviceType_accept ((tabletScan_eq_none _ _).2 ht) hx hp hl
    ((prefixScan_window _ h4).2 hn) ha

/-- Claim C10 at an Android phone User-Agent sent with a WAP Accept value. -/
theorem C10_accept_wap_mobile_witness :
    Contains ((request [("User-Agent", "Mozilla/5.0 (Linux; Android 10) Mobile"),
        ("Accept", "application/vnd.wap.xhtml+xml")]).Get "Accept") (str "wap") = true ∧
    Contains (asciiLower ((request [("User-Agent", "Mozilla/5.0 (Linux; Android 10) Mobile"),
        ("Accept", "application/vnd.wap.xhtml+xml")]).Get "User-Agent")) (str "android") = true ∧
    getDeviceType asciiLower (request [("User-Agent", "Mozilla/5.0 (Linux; Android 10) Mobile"),
        ("Accept", "application/vnd.wap.xhtml+xml")]) =
      .ok { isNormal := false, isMobile := true, isTablet := false, platform := str "Unknown" } :=
  ⟨by decide, by decide, C10_accept_wap_mobile asciiLower
    (request [("User-Agent", "Mozilla/5.0 (Linux; Android 10) Mobile"),
      ("Accept", "application/vnd.wap.xhtml+xml")])
    (by decide) (by decide) (by decide) (by decide) (by decide) (by decide)⟩

/-! ## Further facts on the paths -/

/-- The Accept test of the source, `accept != "" && strings.Contains(accept, Wap)`,
is decided by the containment alone. -/
theorem accept_test (accept : GoString) :
    (accept ≠ [] ∧ Contains accept Wap = true) ↔ Contains accept Wap = true :=
  ⟨fun hc => hc.2, fun hc => ⟨Contains_ne_nil hc (by decide), hc⟩⟩

theorem take_four_length {agent : GoString} (hl : 4 ≤ agent.length) :
    (agent.take 4).length = 4 := by
  rw [List.length_take]
  omega

/-- Once the lower-cased User-Agent has four bytes, every path ends in a return. -/
theorem getDeviceType_long {lower : GoString → GoString} {h : Header}
    (hl : 4 ≤ (lower (h.Get "User-Agent")).length) :
    ∃ d, getDeviceType lower h = .ok d := by
  cases ht : tabletScan (lower (h.Get "User-Agent")) TabletUserAgentKeywords with
  | some d => exact ⟨d, getDeviceType_tablet ht⟩
  | none =>
    by_cases hp : h.Get XwapProfile ≠ [] ∨ h.Get Profile ≠ []
    · exact ⟨_, getDeviceType_profile ht hp⟩
    · have hx : h.Get XwapProfile = [] := by
        by_contra hc
        exact hp (Or.inl hc)
      have hq : h.Get Profile = [] := by
        by_contra hc
        exact hp (Or.inr hc)
      cases hs : prefixScan ((lower (h.Get "User-Agent")).take 4) MobileUserAgentPrefixes with
      | some d => exact ⟨d, getDeviceType_window ht hx hq hl hs⟩
      | none =>
        cases hw : Contains (h.Get "Accept") Wap with
        | true => exact ⟨_, getDeviceType_accept ht hx hq hl hs hw⟩
        | false =>
          cases hk : keywordScan (lower (h.Get "User-Agent")) MobileUserAgentKeywords with
          | some d => exact ⟨d, getDeviceType_keyword ht hx hq hl hs hw hk⟩
          | none => exact ⟨_, getDeviceType_normal ht hx hq hl hs hw hk⟩

/-- A return of the function means that the slice `agent[:4]` was not reached
with a short string. -/
theorem getDeviceType_ok_length {lower : GoString → GoString} {h : Header} {d : device}
    (hd : getDeviceType lower h = .ok d)
    (hx : h.Get XwapProfile = []) (hp : h.Get Profile = []) :
    4 ≤ (lower (h.Get "User-Agent")).length := by
  by_contra hc
  have hl : (lower (h.Get "User-Agent")).length < 4 := Nat.not_le.1 hc
  rw [getDeviceType_short (tabletScan_short hl) hx hp hl] at hd
  cases hd

/-! ## Claims about the fallback, the middleware and the accessor -/

/-- Claim C11: on every header set for which `getDeviceType` returns a
classification, isNormal is true exactly when no check matched (no tablet
keyword, X-Wap-Profile and Profile empty, the first four bytes not a mobile
prefix, Accept without "wap", no mobile keyword), and then the platform is
"Unknown". -/
theorem C11_normal_iff_no_match (lower : GoString → GoString) (h : Header) (d : device)
    (hd : getDeviceType lower h = .ok d) :
    (d.isNormal = true ↔
      ((∀ k ∈ TabletUserAgentKeywords, Contains (lower (h.Get "User-Agent")) k = false) ∧
        h.Get XwapProfile = [] ∧ h.Get Profile = [] ∧
        (lower (h.Get "User-Agent")).take 4 ∉ MobileUserAgentPrefixes ∧
        Contains (h.Get "Accept") (str "wap") = false ∧
        ∀ k ∈ MobileUserAgentKeywords, Contains (lower (h.Get "User-Agent")) k = false)) ∧
    (d.isNormal = true → d.platform = str "Unknown") := by
  have hm := mobilePlatform_flags (lower (h.Get "User-Agent"))
  cases ht : tabletScan (lower (h.Get "User-Agent")) TabletUserAgentKeywords with
  | some d1 =>
    rw [getDeviceType_tablet ht] at hd
    cases hd
    have hf := (tabletScan_flags ht).1
    refine ⟨⟨fun hn => ?_, fun hr => ?_⟩, fun hn => ?_⟩
    · rw [hf] at hn
      cases hn
    · rw [(tabletScan_eq_none _ _).2 hr.1] at ht
      cases ht
    · rw [hf] at hn
      cases hn
  | none =>
    by_cases hp : h.Get XwapProfile ≠ [] ∨ h.Get Profile ≠ []
    · rw [getDeviceType_profile ht hp] at hd
      cases hd
      refine ⟨⟨fun hn => ?_, fun hr => ?_⟩, fun hn => ?_⟩
      · rw [hm.1] at hn
        cases hn
      · rcases hp with hp | hp
        · exact absurd hr.2.1 hp
        · exact absurd hr.2.2.1 hp
      · rw [hm.1] at hn
        cases hn
    · have hx : h.Get XwapProfile = [] := by
        by_contra hc
        exact hp (Or.inl hc)
      have hq : h.Get Profile = [] := by
        by_contra hc
        exact hp (Or.inr hc)
      have hl := getDeviceType_ok_length hd hx hq
      have h4 := take_four_length hl
      cases hs : prefixScan ((lower (h.Get "User-Agent")).take 4) MobileUserAgentPrefixes with
      | some d1 =>
        rw [getDeviceType_window ht hx hq hl hs] at hd
        cases hd
        have hf := prefixScan_some hs
        subst hf
        refine ⟨⟨fun hn => ?_, fun hr => ?_⟩, fun hn => ?_⟩
        · cases hn
        · rw [(prefixScan_window _ h4).2 hr.2.2.2.1] at hs
          cases hs
        · cases hn
      | none =>
        cases hw : Contains (h.Get "Accept") Wap with
        | true =>
          rw [getDeviceType_accept ht hx hq hl hs hw] at hd
          cases hd
          refine ⟨⟨fun hn => ?_, fun hr => ?_⟩, fun hn => ?_⟩
          · cases hn
          · have hr5 : Contains (h.Get "Accept") Wap = false := hr.2.2.2.2.1
            rw [hw] at hr5
            cases hr5
          · cases hn
        | false =>
          cases hk : keywordScan (lower (h.Get "User-Agent")) MobileUserAgentKeywords with
          | some d1 =>
            rw [getDeviceType_keyword ht hx hq hl hs hw hk] at hd
            cases hd
            have hf := keywordScan_some hk
            subst hf
            refine ⟨⟨fun hn => ?_, fun hr => ?_⟩, fun hn => ?_⟩
            · rw [hm.1] at hn
              cases hn
            · rw [(keywordScan_eq_none _ _).2 hr.2.2.2.2.2] at hk
              cases hk
            · rw [hm.1] at hn
              cases hn
          | none =>
            rw [getDeviceType_normal ht hx hq hl hs hw hk] at hd
            cases hd
            exact ⟨⟨fun _ => ⟨(tabletScan_eq_none _ _).1 ht, hx, hq, (prefixScan_window _ h4).1 hs,
              hw, (keywordScan_eq_none _ _).1 hk⟩, fun _ => rfl⟩, fun _ => rfl⟩

/-- Claim C11 at a desktop browser request, for which no check matches. -/
theorem C11_normal_iff_no_match_witness :
    getDeviceType asciiLower
        (request [("User-Agent", "Mozilla/5.0 (Windows NT 10.0; Win64; x64)"),
          ("Accept", "text/html")]) =
      .ok (device.mk true false false (str "Unknown")) ∧
    ((device.mk true false false (str "Unknown")).isNormal = true ↔
      ((∀ k ∈ TabletUserAgentKeywords,
          Contains (asciiLower ((request
            [("User-Agent", "Mozilla/5.0 (Windows NT 10.0; Win64; x64)"),
              ("Accept", "text/html")]).Get "User-Agent")) k = false) ∧
        (request [("User-Agent", "Mozilla/5.0 (Windows NT 10.0; Win64; x64)"),
          ("Accept", "text/html")]).Get XwapProfile = [] ∧
        (request [("User-Agent", "Mozilla/5.0 (Windows NT 10.0; Win64; x64)"),
          ("Accept", "text/html")]).Get Profile = [] ∧
        (asciiLower ((request [("User-Agent", "Mozilla/5.0 (Windows NT 10.0; Win64; x64)"),
          ("Accept", "text/html")]).Get "User-Agent")).take 4 ∉ MobileUserAgentPrefixes ∧
        Contains ((request [("User-Agent", "Mozilla/5.0 (Windows NT 10.0; Win64; x64)"),
          ("Accept", "text/html")]).Get "Accept") (str "wap") = false ∧
        ∀ k ∈ MobileUserAgentKeywords,
          Contains (asciiLower ((request
            [("User-Agent", "Mozilla/5.0 (Windows NT 10.0; Win64; x64)"),
              ("Accept", "text/html")]).Get "User-Agent")) k = false)) ∧
    ((device.mk true false false (str "Unknown")).isNormal = true →
      (device.mk true false false (str "Unknown")).platform = str "Unknown") :=
  ⟨rfl, C11_normal_iff_no_match asciiLower
    (request [("User-Agent", "Mozilla/5.0 (Windows NT 10.0; Win64; x64)"),
      ("Accept", "text/html")])
    (device.mk true false false (str "Unknown")) rfl⟩

/-- Claim C12: on a per-request store with no value under `DefaultKey`,
`GetDevice` panics (the key does not exist) and returns no classification. -/
theorem C12_missing_key_panics (c : Context) (hk : c.Keys DefaultKey = none) :
    GetDevice c = .error .keyNotExists ∧ ∀ d, GetDevice c ≠ .ok d := by
  have e : GetDevice c = .error .keyNotExists := by
    simp only [GetDevice, Context.MustGet, hk]
  refine ⟨e, fun d hd => ?_⟩
  rw [e] at hd
  cases hd

/-- Claim C12 at a request whose store is empty. -/
theorem C12_missing_key_panics_witness :
    (Context.mk (request []) (fun _ => none)).Keys DefaultKey = none ∧
    GetDevice (Context.mk (request []) (fun _ => none)) = .error .keyNotExists :=
  ⟨rfl, (C12_missing_key_panics (Context.mk (request []) (fun _ => none)) rfl).1⟩

/-- Claim C13: when `getDeviceType` returns `d` on the headers of a request,
the `ResolveDevice` handler stores `d` under `DefaultKey`, whatever the store
held before, and hands that store to the rest of the chain; `GetDevice` on it
returns `d`, also after the handler has returned as the last of its chain. -/
theorem C13_resolve_then_get (lower : GoString → GoString)
    (next : Context → Except Panic Context) (c : Context) (d : device)
    (hd : getDeviceType lower c.RequestHeader = .ok d) :
    ResolveDevice lower next c = next (c.Set DefaultKey (.dev d)) ∧
    (c.Set DefaultKey (.dev d)).Keys DefaultKey = some (.dev d) ∧
    GetDevice (c.Set DefaultKey (.dev d)) = .ok d ∧
    ∃ c1, ResolveDevice lower .ok c = .ok c1 ∧ GetDevice c1 = .ok d := by
  have hs : (c.Set DefaultKey (.dev d)).Keys DefaultKey = some (.dev d) := by
    simp only [Context.Set, if_true]
  have hg : GetDevice (c.Set DefaultKey (.dev d)) = .ok d := by
    simp only [GetDevice, Context.MustGet, hs]
  refine ⟨?_, hs, hg, c.Set DefaultKey (.dev d), ?_, hg⟩
  · simp only [ResolveDevice, hd]
  · simp only [ResolveDevice, hd]

/-- Claim C13 at an iPad request whose store already holds another value under
`DefaultKey`. -/
theorem C13_resolve_then_get_witness :
    ∃ c1, ResolveDevice asciiLower .ok
        (Context.mk (request [("User-Agent", "Mozilla/5.0 (iPad; CPU OS 14_0)")])
          (fun k => if k = DefaultKey then some (.other 0) else none)) = .ok c1 ∧
      GetDevice c1 = .ok (device.mk false false true (str "ipad")) :=
  (C13_resolve_then_get asciiLower .ok
    (Context.mk (request [("User-Agent", "Mozilla/5.0 (iPad; CPU OS 14_0)")])
      (fun k => if k = DefaultKey then some (.other 0) else none))
    (device.mk false false true (str "ipad")) rfl).2.2.2

/-! ## Claims about what the result depends on -/

/-- Claim C14 fails as stated: two requests that differ only in the letter case
of the Accept value, "application/vnd.wap.xhtml+xml" against
"application/vnd.WAP.xhtml+xml", are classified differently, the first as
mobile and the second as normal. -/
theorem C14_accept_case_matters :
    asciiLower ((request [("User-Agent", "Mozilla/5.0 (Windows NT 10.0; Win64; x64)"),
        ("Accept", "application/vnd.wap.xhtml+xml")]).Get "Accept") =
      asciiLower ((request [("User-Agent", "Mozilla/5.0 (Windows NT 10.0; Win64; x64)"),
        ("Accept", "application/vnd.WAP.xhtml+xml")]).Get "Accept") ∧
    (∀ key, key ≠ "Accept" →
      request [("User-Agent", "Mozilla/5.0 (Windows NT 10.0; Win64; x64)"),
        ("Accept", "application/vnd.wap.xhtml+xml")] key =
      request [("User-Agent", "Mozilla/5.0 (Windows NT 10.0; Win64; x64)"),
        ("Accept", "application/vnd.WAP.xhtml+xml")] key) ∧
    getDeviceType asciiLower (request [("User-Agent", "Mozilla/5.0 (Windows NT 10.0; Win64; x64)"),
        ("Accept", "application/vnd.wap.xhtml+xml")]) =
      .ok { isNormal := false, isMobile := true, isTablet := false, platform := str "Unknown" } ∧
    getDeviceType asciiLower (request [("User-Agent", "Mozilla/5.0 (Windows NT 10.0; Win64; x64)"),
        ("Accept", "application/vnd.WAP.xhtml+xml")]) =
      .ok { isNormal := true, isMobile := false, isTablet := false, platform := str "Unknown" } ∧
    getDeviceType asciiLower (request [("User-Agent", "Mozilla/5.0 (Windows NT 10.0; Win64; x64)"),
        ("Accept", "application/vnd.wap.xhtml+xml")]) ≠
      getDeviceType asciiLower (request [("User-Agent", "Mozilla/5.0 (Windows NT 10.0; Win64; x64)"),
        ("Accept", "application/vnd.WAP.xhtml+xml")]) := by
  have e1 : getDeviceType asciiLower
      (request [("User-Agent", "Mozilla/5.0 (Windows NT 10.0; Win64; x64)"),
        ("Accept", "application/vnd.wap.xhtml+xml")]) =
      .ok { isNormal := false, isMobile := true, isTablet := false, platform := str "Unknown" } :=
    rfl
  have e2 : getDeviceType asciiLower
      (request [("User-Agent", "Mozilla/5.0 (Windows NT 10.0; Win64; x64)"),
        ("Accept", "application/vnd.WAP.xhtml+xml")]) =
      .ok { isNormal := true, isMobile := false, isTablet := false, platform := str "Unknown" } :=
    rfl
  refine ⟨by decide, ?_, e1, e2, ?_⟩
  · intro key hk
    have hk2 : ¬ ("Accept" = key) := fun e => hk e.symm
    simp [request, List.filter, hk2]
  · rw [e1, e2]
    intro e
    cases e

/-- Claim C14 as amended: the Accept value is tested as it was sent for the
lower-case substring "wap"; two requests that agree on User-Agent,
X-Wap-Profile and Profile, and whose Accept values both contain or both lack
"wap", have the same outcome. -/
theorem C14_accept_same_wap_test (lower : GoString → GoString) (h1 h2 : Header)
    (hu : h1.Get "User-Agent" = h2.Get "User-Agent")
    (hx : h1.Get XwapProfile = h2.Get XwapProfile)
    (hp : h1.Get Profile = h2.Get Profile)
    (ha : Contains (h1.Get "Accept") (str "wap") = Contains (h2.Get "Accept") (str "wap")) :
    getDeviceType lower h1 = getDeviceType lower h2 := by
  have ha2 : Contains (h1.Get "Accept") Wap = Contains (h2.Get "Accept") Wap := ha
  simp only [getDeviceType, accept_test]
  simp only [hu, hx, hp, ha2]

/-- Claim C14 as amended, at two requests whose Accept values differ and both
contain "wap". -/
theorem C14_accept_same_wap_test_witness :
    (request [("User-Agent", "Mozilla/5.0 (Windows NT 10.0; Win64; x64)"),
        ("Accept", "application/vnd.wap.xhtml+xml")]).Get "Accept" ≠
      (request [("User-Agent", "Mozilla/5.0 (Windows NT 10.0; Win64; x64)"),
        ("Accept", "text/vnd.wap.wml")]).Get "Accept" ∧
    getDeviceType asciiLower (request [("User-Agent", "Mozilla/5.0 (Windows NT 10.0; Win64; x64)"),
        ("Accept", "application/vnd.wap.xhtml+xml")]) =
      getDeviceType asciiLower (request [("User-Agent", "Mozilla/5.0 (Windows NT 10.0; Win64; x64)"),
        ("Accept", "text/vnd.wap.wml")]) :=
  ⟨by decide, C14_accept_same_wap_test asciiLower
    (request [("User-Agent", "Mozilla/5.0 (Windows NT 10.0; Win64; x64)"),
      ("Accept", "application/vnd.wap.xhtml+xml")])
    (request [("User-Agent", "Mozilla/5.0 (Windows NT 10.0; Win64; x64)"),
      ("Accept", "text/vnd.wap.wml")])
    (by decide) (by decide) (by decide) (by decide)⟩

/-- Claim C15: the outcome of `getDeviceType`, a classification or the panic,
depends only on the values of User-Agent, X-Wap-Profile, Profile and Accept. -/
theorem C15_four_headers_decide (lower : GoString → GoString) (h1 h2 : Header)
    (hu : h1.Get "User-Agent" = h2.Get "User-Agent")
    (hx : h1.Get "X-Wap-Profile" = h2.Get "X-Wap-Profile")
    (hp : h1.Get "Profile" = h2.Get "Profile")
    (ha : h1.Get "Accept" = h2.Get "Accept") :
    getDeviceType lower h1 = getDeviceType lower h2 := by
  have hx2 : h1.Get XwapProfile = h2.Get XwapProfile := hx
  have hp2 : h1.Get Profile = h2.Get Profile := hp
  simp only [getDeviceType, hu, hx2, hp2, ha]

/-- Claim C15 at two requests that differ in their Cookie and Referer headers. -/
theorem C15_four_headers_decide_witness :
    request [("User-Agent", "Mozilla/5.0 (Linux; Android 10) Mobile"), ("Cookie", "a=1")]
        "Cookie" ≠
      request [("Referer", "http://example.com/"),
        ("User-Agent", "Mozilla/5.0 (Linux; Android 10) Mobile")] "Cookie" ∧
    getDeviceType asciiLower
        (request [("User-Agent", "Mozilla/5.0 (Linux; Android 10) Mobile"), ("Cookie", "a=1")]) =
      getDeviceType asciiLower
        (request [("Referer", "http://example.com/"),
          ("User-Agent", "Mozilla/5.0 (Linux; Android 10) Mobile")]) :=
  ⟨by decide, C15_four_headers_decide asciiLower
    (request [("User-Agent", "Mozilla/5.0 (Linux; Android 10) Mobile"), ("Cookie", "a=1")])
    (request [("Referer", "http://example.com/"),
      ("User-Agent", "Mozilla/5.0 (Linux; Android 10) Mobile")])
    (by decide) (by decide) (by decide) (by decide)⟩

/-- Claim C16: every entry of `MobileUserAgentPrefixes` has exactly four bytes,
so for a string of four bytes the loop test, containment of some entry, is the
same as being an element of the list. -/
theorem C16_window_contains_iff_mem (s : GoString) (hs : s.length = 4) :
    (∀ p ∈ MobileUserAgentPrefixes, p.length = 4) ∧
    ((∃ p ∈ MobileUserAgentPrefixes, Contains s p = true) ↔ s ∈ MobileUserAgentPrefixes) := by
  refine ⟨prefix_length, ?_, fun hm => ⟨s, hm, Contains_self s⟩⟩
  rintro ⟨p, hp, hc⟩
  have e := Contains_eq_of_length hc ((prefix_length p hp).trans hs.symm)
  exact e ▸ hp

/-- Claim C16 at the four-byte string "doco". -/
theorem C16_window_contains_iff_mem_witness :
    (str "doco").length = 4 ∧
    ((∃ p ∈ MobileUserAgentPrefixes, Contains (str "doco") p = true) ↔
      str "doco" ∈ MobileUserAgentPrefixes) :=
  ⟨by decide, (C16_window_contains_iff_mem (str "doco") (by decide)).2⟩

/-! ## Claims about panics, the set of results and the "ipad" disjunct -/

/-- The tablet loop over the four keywords of the source returns only the
platforms "ipad" and "Unknown". -/
theorem tabletScan_cases {agent : GoString} {d : device}
    (h : tabletScan agent TabletUserAgentKeywords = some d) :
    d = { isTablet := true, platform := str "ipad" } ∨
    d = { isTablet := true, platform := str "Unknown" } := by
  have e1 : (str "playbook" = Ipad) = False := eq_false (by decide)
  have e2 : (str "playbook" = Kindle) = False := eq_false (by decide)
  have e3 : (str "hp-tablet" = Ipad) = False := eq_false (by decide)
  have e4 : (str "hp-tablet" = Kindle) = False := eq_false (by decide)
  have e5 : (str "kindle" = Ipad) = False := eq_false (by decide)
  have e6 : (str "kindle" = Kindle) = False := eq_false (by decide)
  have e7 : (str "ipad" = Ipad) = True := eq_true rfl
  simp only [TabletUserAgentKeywords, List.map, tabletScan, e1, e2, e3, e4, e5, e6, e7, if_true,
    if_false] at h
  split at h
  · cases h
    exact Or.inl rfl
  · split at h
    · cases h
      exact Or.inr rfl
    · split at h
      · cases h
        exact Or.inr rfl
      · split at h
        · cases h
          exact Or.inr rfl
        · cases h

theorem mobilePlatform_cases (agent : GoString) :
    mobilePlatform agent = { isMobile := true, platform := str "android" } ∨
    mobilePlatform agent = { isMobile := true, platform := str "ios" } ∨
    mobilePlatform agent = { isMobile := true, platform := str "Unknown" } := by
  unfold mobilePlatform
  split
  · exact Or.inl rfl
  · split
    · exact Or.inr (Or.inl rfl)
    · exact Or.inr (Or.inr rfl)

/-- The return statement behind a returned classification. -/
theorem getDeviceType_cases {lower : GoString → GoString} {h : Header} {d : device}
    (hd : getDeviceType lower h = .ok d) :
    tabletScan (lower (h.Get "User-Agent")) TabletUserAgentKeywords = some d ∨
    d = mobilePlatform (lower (h.Get "User-Agent")) ∨
    d = { isMobile := true, platform := Unknown } ∨
    d = { isNormal := true, platform := Unknown } := by
  unfold getDeviceType at hd
  simp only at hd
  split at hd
  · rename_i d1 ht
    cases hd
    exact Or.inl ht
  · split at hd
    · cases hd
      exact Or.inr (Or.inl rfl)
    · split at hd
      · cases hd
      · split at hd
        · rename_i d1 hs
          cases hd
          exact Or.inr (Or.inr (Or.inl (prefixScan_some hs)))
        · split at hd
          · cases hd
            exact Or.inr (Or.inr (Or.inl rfl))
          · split at hd
            · rename_i d1 hk
              cases hd
              exact Or.inr (Or.inl (keywordScan_some hk))
            · cases hd
              exact Or.inr (Or.inr (Or.inr rfl))

theorem mobilePlatformVariant_eq {agent : GoString} (hi : Contains agent Ipad = false) :
    mobilePlatformVariant agent = mobilePlatform agent := by
  simp only [mobilePlatformVariant, mobilePlatform, hi]

theorem keywordScanVariant_eq {agent : GoString} (hi : Contains agent Ipad = false)
    (ks : List GoString) : keywordScanVariant agent ks = keywordScan agent ks := by
  induction ks with
  | nil => rfl
  | cons k ks ih => simp only [keywordScanVariant, keywordScan, mobilePlatformVariant_eq hi, ih]

/-- Claim C17: `getDeviceType` panics, and then at the slice `agent[:4]`, exactly
when the lower-cased User-Agent has fewer than four bytes and X-Wap-Profile and
Profile are both empty; on every other header set it returns a classification. -/
theorem C17_panics_iff_short (lower : GoString → GoString) (h : Header) :
    ((∃ e, getDeviceType lower h = .error e) ↔
      ((lower (h.Get "User-Agent")).length < 4 ∧ h.Get XwapProfile = [] ∧ h.Get Profile = [])) ∧
    ((∃ d, getDeviceType lower h = .ok d) ↔
      ¬ ((lower (h.Get "User-Agent")).length < 4 ∧ h.Get XwapProfile = [] ∧
        h.Get Profile = [])) ∧
    (∀ e, getDeviceType lower h = .error e → e = .sliceBounds) := by
  by_cases hc : (lower (h.Get "User-Agent")).length < 4 ∧ h.Get XwapProfile = [] ∧
      h.Get Profile = []
  · have e := getDeviceType_short (tabletScan_short hc.1) hc.2.1 hc.2.2 hc.1
    refine ⟨⟨fun _ => hc, fun _ => ⟨_, e⟩⟩, ⟨?_, fun hn => absurd hc hn⟩, ?_⟩
    · rintro ⟨d, hd⟩
      rw [e] at hd
      cases hd
    · intro e1 he
      rw [e] at he
      cases he
      rfl
  · have hok : ∃ d, getDeviceType lower h = .ok d := by
      by_cases hl : 4 ≤ (lower (h.Get "User-Agent")).length
      · exact getDeviceType_long hl
      · have hl2 : (lower (h.Get "User-Agent")).length < 4 := Nat.not_le.1 hl
        have hp : h.Get XwapProfile ≠ [] ∨ h.Get Profile ≠ [] := by
          by_contra hn
          apply hc
          refine ⟨hl2, ?_, ?_⟩
          · by_contra hx
            exact hn (Or.inl hx)
          · by_contra hq
            exact hn (Or.inr hq)
        exact ⟨_, getDeviceType_profile (tabletScan_short hl2) hp⟩
    obtain ⟨d, hd⟩ := hok
    refine ⟨⟨?_, fun hh => absurd hh hc⟩, ⟨fun _ => hc, fun _ => ⟨d, hd⟩⟩, ?_⟩
    · rintro ⟨e, he⟩
      rw [hd] at he
      cases he
    · intro e he
      rw [hd] at he
      cases he

/-- Claim C18: every classification returned by `getDeviceType` is one of
tablet/"ipad", tablet/"Unknown", mobile/"android", mobile/"ios",
mobile/"Unknown" and normal/"Unknown"; each of the six is returned for some
request; the platform is never "Kindle" or "Silk". -/
theorem C18_six_results :
    (∀ (lower : GoString → GoString) (h : Header) (d : device),
      getDeviceType lower h = .ok d →
        (d = device.mk false false true (str "ipad") ∨
          d = device.mk false false true (str "Unknown") ∨
          d = device.mk false true false (str "android") ∨
          d = device.mk false true false (str "ios") ∨
          d = device.mk false true false (str "Unknown") ∨
          d = device.mk true false false (str "Unknown")) ∧
        d.platform ≠ str "Kindle" ∧ d.platform ≠ str "Silk") ∧
    getDeviceType asciiLower (request [("User-Agent", "Mozilla/5.0 (iPad; CPU OS 14_0)")]) =
      .ok (device.mk false false true (str "ipad")) ∧
    getDeviceType asciiLower
        (request [("User-Agent", "Mozilla/5.0 (PlayBook; U; RIM Tablet OS 2.1.0)")]) =
      .ok (device.mk false false true (str "Unknown")) ∧
    getDeviceType asciiLower (request [("User-Agent", "Mozilla/5.0 (Linux; Android 10) Mobile")]) =
      .ok (device.mk false true false (str "android")) ∧
    getDeviceType asciiLower
        (request [("User-Agent", "Mozilla/5.0 (iPhone; CPU iPhone OS 14_0)")]) =
      .ok (device.mk false true false (str "ios")) ∧
    getDeviceType asciiLower (request [("User-Agent", "BlackBerry9700/5.0.0.862")]) =
      .ok (device.mk false true false (str "Unknown")) ∧
    getDeviceType asciiLower (request [("User-Agent", "Mozilla/5.0 (X11; Linux x86_64)")]) =
      .ok (device.mk true false false (str "Unknown")) := by
  refine ⟨?_, rfl, rfl, rfl, rfl, rfl, rfl⟩
  intro lower h d hd
  have hsix : d = device.mk false false true (str "ipad") ∨
      d = device.mk false false true (str "Unknown") ∨
      d = device.mk false true false (str "android") ∨
      d = device.mk false true false (str "ios") ∨
      d = device.mk false true false (str "Unknown") ∨
      d = device.mk true false false (str "Unknown") := by
    rcases getDeviceType_cases hd with ht | hm | hu | hn
    · rcases tabletScan_cases ht with e | e
      · exact Or.inl e
      · exact Or.inr (Or.inl e)
    · rcases mobilePlatform_cases (lower (h.Get "User-Agent")) with e | e | e
      · exact Or.inr (Or.inr (Or.inl (hm.trans e)))
      · exact Or.inr (Or.inr (Or.inr (Or.inl (hm.trans e))))
      · exact Or.inr (Or.inr (Or.inr (Or.inr (Or.inl (hm.trans e)))))
    · exact Or.inr (Or.inr (Or.inr (Or.inr (Or.inl hu))))
    · exact Or.inr (Or.inr (Or.inr (Or.inr (Or.inr hn))))
  refine ⟨hsix, ?_⟩
  rcases hsix with e | e | e | e | e | e <;> subst e <;> exact ⟨by decide, by decide⟩

/-- Claim C19: a lower-cased User-Agent that contains "iphone" and no tablet
keyword is always classified, and as mobile, whatever the other headers are:
it has at least four bytes and contains the mobile keyword "phone". -/
theorem C19_iphone_is_mobile (lower : GoString → GoString) (h : Header)
    (hi : Contains (lower (h.Get "User-Agent")) (str "iphone") = true)
    (ht : ∀ k ∈ TabletUserAgentKeywords, Contains (lower (h.Get "User-Agent")) k = false) :
    ∃ d, getDeviceType lower h = .ok d ∧ d.isMobile = true := by
  have hm := mobilePlatform_flags (lower (h.Get "User-Agent"))
  have hts := (tabletScan_eq_none _ _).2 ht
  have hl : 4 ≤ (lower (h.Get "User-Agent")).length := by
    have h6 := Contains_length_le hi
    have e6 : (str "iphone").length = 6 := by decide
    omega
  have hph : Contains (lower (h.Get "User-Agent")) (str "phone") = true := by
    have e : Contains (str "iphone") (str "phone") = true := by decide
    exact (Contains_iff _ _).2 (((Contains_iff _ _).1 e).trans ((Contains_iff _ _).1 hi))
  by_cases hp : h.Get XwapProfile ≠ [] ∨ h.Get Profile ≠ []
  · exact ⟨_, getDeviceType_profile hts hp, hm.2.1⟩
  · have hx : h.Get XwapProfile = [] := by
      by_contra hc
      exact hp (Or.inl hc)
    have hq : h.Get Profile = [] := by
      by_contra hc
      exact hp (Or.inr hc)
    cases hs : prefixScan ((lower (h.Get "User-Agent")).take 4) MobileUserAgentPrefixes with
    | some d =>
      refine ⟨d, getDeviceType_window hts hx hq hl hs, ?_⟩
      rw [prefixScan_some hs]
    | none =>
      cases hw : Contains (h.Get "Accept") Wap with
      | true => exact ⟨_, getDeviceType_accept hts hx hq hl hs hw, rfl⟩
      | false =>
        cases hk : keywordScan (lower (h.Get "User-Agent")) MobileUserAgentKeywords with
        | some d =>
          refine ⟨d, getDeviceType_keyword hts hx hq hl hs hw hk, ?_⟩
          rw [keywordScan_some hk]
          exact hm.2.1
        | none =>
          have hf := (keywordScan_eq_none _ _).1 hk (str "phone") (by decide)
          rw [hph] at hf
          cases hf

/-- Claim C19 at an iPhone User-Agent sent without any other header. -/
theorem C19_iphone_is_mobile_witness :
    Contains (asciiLower ((request
      [("User-Agent", "Mozilla/5.0 (iPhone; CPU iPhone OS 14_0 like Mac OS X)")]).Get
        "User-Agent")) (str "iphone") = true ∧
    ∃ d, getDeviceType asciiLower
        (request [("User-Agent", "Mozilla/5.0 (iPhone; CPU iPhone OS 14_0 like Mac OS X)")]) =
      .ok d ∧ d.isMobile = true :=
  ⟨by decide, C19_iphone_is_mobile asciiLower
    (request [("User-Agent", "Mozilla/5.0 (iPhone; CPU iPhone OS 14_0 like Mac OS X)")])
    (by decide) (by decide)⟩

/-- Claim C20: replacing `strings.Contains(agent, Ipad)` by `false` in both
platform resolutions changes the outcome of `getDeviceType` on no header set. -/
theorem C20_ipad_disjunct_never_decides (lower : GoString → GoString) (h : Header) :
    getDeviceTypeVariant lower h = getDeviceType lower h := by
  cases ht : tabletScan (lower (h.Get "User-Agent")) TabletUserAgentKeywords with
  | some d => simp only [getDeviceTypeVariant, getDeviceType, ht]
  | none =>
    have hi : Contains (lower (h.Get "User-Agent")) Ipad = false :=
      (tabletScan_eq_none _ _).1 ht Ipad (by decide)
    simp only [getDeviceTypeVariant, getDeviceType, ht, mobilePlatformVariant_eq hi,
      keywordScanVariant_eq hi]

end Platform
